import Mathlib

/-!
# Verification of `acrnprobe` probeutils (acrn-hypervisor, tools/acrn-crashlog)

Shallow embedding of `tools/acrn-crashlog/acrnprobe/probeutils.c`:
the hash-key generator (`compute_key` / `generate_event_id`), the directory
slot allocator (`reserve_log_folder` / `generate_log_dir`), the crash report
writer (`generate_crashfile`) and the boot session tracker
(`is_boot_id_changed`).

External collaborators (the OpenSSL SHA256 digest, the clock, `localtime`,
and the generic file helpers of `fsutils.c`) are modelled as explicit inputs:
a fallible read is an `Option`, a file is its current content (`Option` =
absent).  Machine strings are Lean `String`s at code-point granularity; the
claims proved here depend only on lengths and character classes, never on
multi-byte encodings.
-/

set_option autoImplicit false

/-- Ambient identity and clock state consumed by probeutils: the global
build-version and device-UUID strings, the `CLOCK_BOOTTIME` reading
(`none` = `clock_gettime` failed, otherwise seconds and nanoseconds), and
the wall-clock timestamp as produced by `get_current_time_long`
(`none` = `localtime`/`strftime` failed, i.e. its return was `<= 0`). -/
structure ProbeEnv where
  gbuildversion : String
  guuid : String
  clock : Option (Nat × Nat)
  localtime : Option String
deriving DecidableEq

/-- Embeds `get_uptime`: `clock_gettime(CLOCK_BOOTTIME)` failure returns `res` (-1);
otherwise `tv_sec * 1000000000 + tv_nsec`.  The C return type is
`unsigned long long`, but both consumers (`compute_key`,
`get_uptime_string`) assign the result to a `long long`, where the failure
value reads back as -1 again; we model that signed view directly. -/
def get_uptime (clock : Option (Nat × Nat)) : Int :=
  match clock with
  | none => -1
  | some sn => (sn.1 : Int) * 1000000000 + (sn.2 : Int)

/-- Decimal rendering of `n` zero-padded on the left to at least `w` digits
(`snprintf` `%0wd` for a non-negative value). -/
def padZero (w n : Nat) : String :=
  String.mk (List.replicate (w - (toString n).length) '0') ++ toString n

/-- Embeds `get_uptime_string`: fails iff `get_uptime` reported the clock failure;
otherwise renders total boot seconds as `%04d:%02d:%02d`
(hours : minutes : seconds). -/
def get_uptime_string (clock : Option (Nat × Nat)) : Option String :=
  let tm := get_uptime clock
  if tm = -1 then none
  else
    let total := tm.toNat / 1000000000
    some (padZero 4 (total / 60 / 60) ++ ":" ++ padZero 2 (total / 60 % 60) ++
          ":" ++ padZero 2 (total % 60))

/-- Embeds `get_current_time_long`: formats the wall clock; in the embedding the
formatted result (or its failure) is carried by the environment. -/
def get_current_time_long (env : ProbeEnv) : Option String :=
  env.localtime

/-- The constant `SHA256_DIGEST_LENGTH` of OpenSSL. -/
def SHA256_DIGEST_LENGTH : Nat := 32

/-- Modelled from the spec: `SHORT_KEY_LENGTH` of `probeutils.h` (header not
under `src/`); the Short variant produces a 20-character key. -/
def SHORT_KEY_LENGTH : Nat := 20

/-- Modelled from the spec: `LONG_KEY_LENGTH` of `probeutils.h` (header not
under `src/`); the Long variant produces a 32-character key. -/
def LONG_KEY_LENGTH : Nat := 32

/-- The C `enum key_type` of `probeutils.h`. -/
inductive key_type where
  | KEY_SHORT
  | KEY_LONG
deriving DecidableEq

/-- Byte sequence fed to `SHA256_Update` for a string. -/
def strBytes (s : String) : List Nat :=
  s.toList.map Char.toNat

/-- Lowercase hex digit of a nibble, as produced by `sprintf "%02x"`. -/
def hexDigit (n : Nat) : Char :=
  if n < 10 then Char.ofNat (48 + n) else Char.ofNat (87 + n)

/-- The two lowercase hex characters `sprintf "%02x"` prints for a byte
`b < 256`: high nibble then low nibble. -/
def byteToHex (b : Nat) : List Char :=
  [hexDigit (b / 16), hexDigit (b % 16)]

/-- Embeds `compute_key`: rejects a null seed and a requested length outside
`(0, 2 * SHA256_DIGEST_LENGTH]`; otherwise salts with
`gbuildversion ++ guuid ++ time_ns` (the `snprintf` into a `VERSION_SIZE`
buffer; the salt's exact bytes are irrelevant to every claim below, only the
digest's shape is), hashes salt then seed, and hex-encodes the first
`key_len / 2` digest bytes.  The digest `sha` is the external OpenSSL
SHA256, passed in as a function from message bytes to digest bytes. -/
def compute_key (sha : List Nat → List Nat) (env : ProbeEnv) (key_len : Nat)
    (seed : Option String) : Option String :=
  match seed with
  | none => none
  | some seedStr =>
    if key_len > SHA256_DIGEST_LENGTH * 2 ∨ key_len = 0 then none
    else
      let time_ns : Int := get_uptime env.clock
      let buf : String := env.gbuildversion ++ env.guuid ++ toString time_ns
      let results : List Nat := sha (strBytes buf ++ strBytes seedStr)
      some (String.mk ((results.take (key_len / 2)).map byteToHex).flatten)

/-- Embeds `generate_event_id`: null `seed1` fails; the variant selects the key
length; a non-null `seed2` is concatenated to `seed1` before hashing
(the `asprintf` buffer).  Allocation failure paths (`malloc`/`asprintf`
returning no memory) are modelled as succeeding. -/
def generate_event_id (sha : List Nat → List Nat) (env : ProbeEnv)
    (seed1 seed2 : Option String) (type : key_type) : Option String :=
  match seed1 with
  | none => none
  | some s1 =>
    let klen : Nat :=
      match type with
      | key_type.KEY_SHORT => SHORT_KEY_LENGTH
      | key_type.KEY_LONG => LONG_KEY_LENGTH
    match seed2 with
    | some s2 => compute_key sha env klen (some (s1 ++ s2))
    | none => compute_key sha env klen (some s1)

/-- The C `struct sender_t`, restricted to the two fields probeutils reads:
`outdir` and `maxcrashdirs` (the latter already through `atoi`). -/
structure sender_t where
  outdir : String
  maxcrashdirs : Nat
deriving DecidableEq

/-- The C `enum e_dir_mode` of `load_conf.h`. -/
inductive e_dir_mode where
  | MODE_CRASH
  | MODE_STATS
  | MODE_VMEVENT
deriving DecidableEq

def CRASH_CURRENT_LOG : String := "currentcrashlog"
def STATS_CURRENT_LOG : String := "currentstatslog"
def VM_CURRENT_LOG : String := "currentvmlog"

/-- Modelled from the spec: `file_read_int` of `fsutils.c` (not under
`src/`) reads the persisted counter; a missing or malformed counter file is
treated as current index 0.  The counter file is its content, `none` when
absent or unparsable. -/
def file_read_int (counterFile : Option Nat) : Nat :=
  counterFile.getD 0

/-- Modelled from the spec: `file_update_int` of `fsutils.c` (not under
`src/`) persists `(current + 1) % max` back to the counter file. -/
def file_update_int (current max : Nat) : Nat :=
  (current + 1) % max

/-- Result of a successful `reserve_log_folder`: the `dir` out-parameter,
the counter-file path, the `*current` out-parameter (the index read), and
the counter value persisted for the next reservation. -/
structure reserve_result where
  dir : String
  countPath : String
  current : Nat
  counterAfter : Nat
deriving DecidableEq

/-- Embeds `reserve_log_folder`: fails when the `crashlog` sender is not
configured; selects the counter-file name and the dir prefix by mode
(note `sprintf(dir, "%s/%s", outdir, sub)`: no trailing slash), reads the
current index, persists its successor modulo `maxcrashdirs`. -/
def reserve_log_folder (crashlog : Option sender_t) (mode : e_dir_mode)
    (counterFile : Option Nat) : Option reserve_result :=
  match crashlog with
  | none => none
  | some cl =>
    let pathDir : String × String :=
      match mode with
      | e_dir_mode.MODE_CRASH =>
        (cl.outdir ++ "/" ++ CRASH_CURRENT_LOG, cl.outdir ++ "/" ++ "crashlog")
      | e_dir_mode.MODE_STATS =>
        (cl.outdir ++ "/" ++ STATS_CURRENT_LOG, cl.outdir ++ "/" ++ "stats")
      | e_dir_mode.MODE_VMEVENT =>
        (cl.outdir ++ "/" ++ VM_CURRENT_LOG, cl.outdir ++ "/" ++ "vmevent")
    let current := file_read_int counterFile
    some ⟨pathDir.2, pathDir.1, current, file_update_int current cl.maxcrashdirs⟩

/-- Embeds `generate_log_dir`: reserves a slot and appends `"%d_%s"` (decimal
index, underscore, hashkey) directly to the reserved dir prefix — the format
string is `"%s%d_%s"`, with no separator of its own.  Returns the created
path and the persisted counter; `mkdir`/`asprintf` failures are modelled as
succeeding. -/
def generate_log_dir (crashlog : Option sender_t) (mode : e_dir_mode)
    (hashkey : String) (counterFile : Option Nat) : Option (String × Nat) :=
  match reserve_log_folder crashlog mode counterFile with
  | none => none
  | some r => some (r.dir ++ toString r.current ++ "_" ++ hashkey, r.counterAfter)

/-- Indices handed out by `n` consecutive reservations starting from a given
counter-file state, threading the persisted counter through. -/
def reserveIndices (cl : sender_t) (mode : e_dir_mode) :
    Option Nat → Nat → List Nat
  | _, 0 => []
  | f, Nat.succ n =>
    match reserve_log_folder (some cl) mode f with
    | none => []
    | some r => r.current :: reserveIndices cl mode (some r.counterAfter) n

/-- The `strcat_fmt` macro: each formatted line passes through a local
1024-byte buffer via `snprintf`, so at most 1023 characters of it survive
before being `strcat`ed onto the report. -/
def strcat_fmt (line : String) : String :=
  String.mk (line.toList.take 1023)

/-- The `uptime` buffer of `generate_crashfile`: initialized to the empty
string, filled by `get_uptime_string` only when that call succeeds (its
return value is ignored). -/
def uptime_buffer (clock : Option (Nat × Nat)) : String :=
  (get_uptime_string clock).getD ""

/-- Report text composed by `generate_crashfile` once the wall-clock
timestamp `datetime` is in hand: the fixed `KEY=value` lines in source
order, each through `strcat_fmt`, the `DATAn` lines only for non-null
arguments, then the plain `strcat` of the `"_END\n"` sentinel.  `uptime` is
the buffer filled by `get_uptime_string`, still `""` when that call
failed. -/
def crash_text (env : ProbeEnv) (datetime : String)
    (event hashkey type : String) (data0 data1 data2 : Option String) : String :=
  let uptime : String := uptime_buffer env.clock
  strcat_fmt ("EVENT=" ++ event ++ "\n") ++
  strcat_fmt ("ID=" ++ hashkey ++ "\n") ++
  strcat_fmt ("DEVICEID=" ++ env.guuid ++ "\n") ++
  strcat_fmt ("DATE=" ++ datetime ++ "\n") ++
  strcat_fmt ("UPTIME=" ++ uptime ++ "\n") ++
  strcat_fmt ("BUILD=" ++ env.gbuildversion ++ "\n") ++
  strcat_fmt ("TYPE=" ++ type ++ "\n") ++
  (match data0 with
   | some d => strcat_fmt ("DATA0=" ++ d ++ "\n")
   | none => "") ++
  (match data1 with
   | some d => strcat_fmt ("DATA1=" ++ d ++ "\n")
   | none => "") ++
  (match data2 with
   | some d => strcat_fmt ("DATA2=" ++ d ++ "\n")
   | none => "") ++
  "_END\n"

/-- Embeds `generate_crashfile`: bails out (writing nothing) when
`get_current_time_long` reports failure (`ret <= 0`), before any buffer is
allocated; otherwise ignores the `get_uptime_string` result, composes the
report and overwrites `<dir>/crashfile` with it.  The return value is the
written file: its path and content, `none` when nothing was written.
`malloc`/`asprintf`/`overwrite_file` storage failures are modelled as
succeeding (on them the C code writes nothing further and only logs). -/
def generate_crashfile (env : ProbeEnv) (dir : String)
    (event hashkey type : String) (data0 data1 data2 : Option String) :
    Option (String × String) :=
  match get_current_time_long env with
  | none => none
  | some datetime =>
    some (dir ++ "/" ++ "crashfile",
          crash_text env datetime event hashkey type data0 data1 data2)

def BOOTID_LOG : String := "currentbootid"

/-- Embeds `is_boot_id_changed`.  Inputs: the configured `crashlog` sender, the
read of `/proc/sys/kernel/random/boot_id` (`none` = `read_file` failed or
returned size 0), the current content of `<outdir>/currentbootid` (`none` =
the file does not exist), and whether `read_file` on that existing record
succeeds with non-zero size.  Output: the C return value (1 = changed, the
default; 0 = unchanged) and the record file's content afterwards. -/
def is_boot_id_changed (crashlog : Option sender_t) (boot_id : Option String)
    (loggedFile : Option String) (readOk : Bool) : Nat × Option String :=
  match crashlog with
  | none => (1, loggedFile)
  | some _ =>
    match boot_id with
    | none => (1, loggedFile)
    | some bid =>
      match loggedFile with
      | some logged =>
        if !readOk then (1, loggedFile)
        else if logged = bid then (0, loggedFile)
        else (1, some bid)
      | none => (1, some bid)

/-! ## Spec-side definitions

Used only to state the claims, never as a model of the code: the claims are
settled by comparing them with the definitions above. -/

/-- A lowercase hexadecimal digit in `[0-9a-f]`. -/
def is_hex_lower (c : Char) : Bool :=
  c.isDigit || ('a' ≤ c && c ≤ 'f')

/-- The per-mode subdirectory name of the spec's directory-naming rule. -/
def log_subdir : e_dir_mode → String
  | e_dir_mode.MODE_CRASH => "crashlog"
  | e_dir_mode.MODE_STATS => "stats"
  | e_dir_mode.MODE_VMEVENT => "vmevent"

/-- A list of lines rendered as a text file: every line, the final one
included, terminated by a newline. -/
def joinLines : List String → String
  | [] => ""
  | s :: rest => s ++ "\n" ++ joinLines rest

/-- The crash report shape the spec claims: the seven fixed `KEY=value`
lines in order, a `DATAn` line exactly for each supplied data argument, and
the sentinel line `_END`. -/
def crashfile_claim_lines (env : ProbeEnv) (datetime : String)
    (event hashkey type : String) (data0 data1 data2 : Option String) :
    List String :=
  ["EVENT=" ++ event, "ID=" ++ hashkey, "DEVICEID=" ++ env.guuid,
   "DATE=" ++ datetime, "UPTIME=" ++ uptime_buffer env.clock,
   "BUILD=" ++ env.gbuildversion, "TYPE=" ++ type] ++
  (match data0 with
   | some d => ["DATA0=" ++ d]
   | none => []) ++
  (match data1 with
   | some d => ["DATA1=" ++ d]
   | none => []) ++
  (match data2 with
   | some d => ["DATA2=" ++ d]
   | none => []) ++
  ["_END"]

/-! ## Concrete fixtures

Closed values used by witnesses and counterexamples. -/

/-- A concrete digest function standing in for the external OpenSSL SHA256:
it satisfies the digest-shape hypotheses (32 bytes, each below 256). -/
def sha256_fixture : List Nat → List Nat :=
  fun _ => List.replicate 32 0

def env_fixture : ProbeEnv :=
  { gbuildversion := "BUILD1", guuid := "uuid-1234",
    clock := some (3661, 5), localtime := some "2024-01-01/00:00:00  " }

/-- Environment whose `CLOCK_BOOTTIME` read fails. -/
def env_noclock : ProbeEnv :=
  { gbuildversion := "BUILD1", guuid := "uuid-1234",
    clock := none, localtime := some "2024-01-01/00:00:00  " }

/-- Environment whose wall-clock timestamp cannot be obtained. -/
def env_notime : ProbeEnv :=
  { gbuildversion := "BUILD1", guuid := "uuid-1234",
    clock := some (3661, 5), localtime := none }

/-- 1017 characters: `"DATA0=" ++ long_data ++ "\n"` is 1024 characters,
one more than the 1023 that survive the `strcat_fmt` buffer. -/
def long_data : String :=
  String.mk (List.replicate 1017 'a')

/-! ## Helper lemmas -/

theorem string_mk_length (l : List Char) : (String.mk l).length = l.length := rfl

theorem string_mk_toList (l : List Char) : (String.mk l).toList = l := rfl

theorem string_eq_of_data (a b : String) (h : a.data = b.data) : a = b := by
  cases a
  cases b
  exact congrArg String.mk h

theorem string_append_data (a b : String) : (a ++ b).data = a.data ++ b.data := rfl

theorem strcat_fmt_of_le (s : String) (h : s.length ≤ 1023) : strcat_fmt s = s := by
  have h2 : s.toList.length ≤ 1023 := h
  unfold strcat_fmt
  rw [List.take_of_length_le h2]
  cases s
  rfl

theorem hexDigit_hex : ∀ n, n < 16 → is_hex_lower (hexDigit n) = true := by decide

theorem byteToHex_hex (b : Nat) (hb : b < 256) :
    ∀ c ∈ byteToHex b, is_hex_lower c = true := by
  intro c hc
  have hdiv : b / 16 < 16 := Nat.div_lt_of_lt_mul (by omega)
  have hmod : b % 16 < 16 := Nat.mod_lt _ (by omega)
  simp only [byteToHex, List.mem_cons, List.not_mem_nil, or_false] at hc
  rcases hc with h | h
  · exact h ▸ hexDigit_hex _ hdiv
  · exact h ▸ hexDigit_hex _ hmod

theorem flatten_byteToHex_length (l : List Nat) :
    ((l.map byteToHex).flatten).length = 2 * l.length := by
  induction l with
  | nil => rfl
  | cons b t ih =>
    simp only [List.map_cons, List.flatten_cons, List.length_append, ih, byteToHex,
      List.length_cons, List.length_nil]
    omega

theorem compute_key_eq (sha : List Nat → List Nat) (env : ProbeEnv)
    (key_len : Nat) (s : String) (h1 : 0 < key_len) (h2 : key_len ≤ 64) :
    compute_key sha env key_len (some s) =
      some (String.mk
        (((sha (strBytes (env.gbuildversion ++ env.guuid ++
            toString (get_uptime env.clock)) ++ strBytes s)).take
              (key_len / 2)).map byteToHex).flatten) := by
  have hcond : ¬ (key_len > SHA256_DIGEST_LENGTH * 2 ∨ key_len = 0) := by
    simp only [SHA256_DIGEST_LENGTH]
    omega
  simp only [compute_key]
  rw [if_neg hcond]

theorem compute_key_spec (sha : List Nat → List Nat) (env : ProbeEnv)
    (key_len : Nat) (s : String) (h1 : 0 < key_len) (h2 : key_len ≤ 64)
    (hlen : ∀ m, (sha m).length = SHA256_DIGEST_LENGTH)
    (hbyte : ∀ m b, b ∈ sha m → b < 256) :
    ∃ k, compute_key sha env key_len (some s) = some k ∧
      k.length = 2 * (key_len / 2) ∧
      ∀ c ∈ k.toList, is_hex_lower c = true := by
  refine ⟨_, compute_key_eq sha env key_len s h1 h2, ?_, ?_⟩
  · rw [string_mk_length, flatten_byteToHex_length, List.length_take, hlen]
    have : key_len / 2 ≤ SHA256_DIGEST_LENGTH := by
      simp only [SHA256_DIGEST_LENGTH]
      omega
    omega
  · intro c hc
    rw [string_mk_toList] at hc
    rw [List.mem_flatten] at hc
    obtain ⟨chunk, hchunk, hcc⟩ := hc
    rw [List.mem_map] at hchunk
    obtain ⟨b, hb, rfl⟩ := hchunk
    have hbm : b ∈ sha _ := List.mem_of_mem_take hb
    exact byteToHex_hex b (hbyte _ b hbm) c hcc

/-! ## Claim C2 -/

/-- C2: for every non-null `seed1`, any `seed2` and a valid variant,
`generate_event_id` returns a key of exactly 20 characters (`KEY_SHORT`)
respectively 32 characters (`KEY_LONG`), every character a lowercase hex
digit, for any digest function with SHA256's shape (32 bytes, each below
256). -/
theorem c2_event_id_length_hex (sha : List Nat → List Nat) (env : ProbeEnv)
    (s1 : String) (seed2 : Option String)
    (hlen : ∀ m, (sha m).length = SHA256_DIGEST_LENGTH)
    (hbyte : ∀ m b, b ∈ sha m → b < 256) :
    (∃ k, generate_event_id sha env (some s1) seed2 key_type.KEY_SHORT = some k ∧
      k.length = 20 ∧ ∀ c ∈ k.toList, is_hex_lower c = true) ∧
    (∃ k, generate_event_id sha env (some s1) seed2 key_type.KEY_LONG = some k ∧
      k.length = 32 ∧ ∀ c ∈ k.toList, is_hex_lower c = true) := by
  constructor
  · cases seed2 with
    | none =>
      obtain ⟨k, hk, hl, hx⟩ :=
        compute_key_spec sha env SHORT_KEY_LENGTH s1 (by decide) (by decide) hlen hbyte
      exact ⟨k, by simpa [generate_event_id] using hk, by simpa [SHORT_KEY_LENGTH] using hl, hx⟩
    | some s2 =>
      obtain ⟨k, hk, hl, hx⟩ :=
        compute_key_spec sha env SHORT_KEY_LENGTH (s1 ++ s2) (by decide) (by decide) hlen hbyte
      exact ⟨k, by simpa [generate_event_id] using hk, by simpa [SHORT_KEY_LENGTH] using hl, hx⟩
  · cases seed2 with
    | none =>
      obtain ⟨k, hk, hl, hx⟩ :=
        compute_key_spec sha env LONG_KEY_LENGTH s1 (by decide) (by decide) hlen hbyte
      exact ⟨k, by simpa [generate_event_id] using hk, by simpa [LONG_KEY_LENGTH] using hl, hx⟩
    | some s2 =>
      obtain ⟨k, hk, hl, hx⟩ :=
        compute_key_spec sha env LONG_KEY_LENGTH (s1 ++ s2) (by decide) (by decide) hlen hbyte
      exact ⟨k, by simpa [generate_event_id] using hk, by simpa [LONG_KEY_LENGTH] using hl, hx⟩

theorem c2_event_id_length_hex_witness :
    (∃ k, generate_event_id sha256_fixture env_fixture (some "kernel panic") none
        key_type.KEY_SHORT = some k ∧
      k.length = 20 ∧ ∀ c ∈ k.toList, is_hex_lower c = true) ∧
    (∃ k, generate_event_id sha256_fixture env_fixture (some "kernel panic") none
        key_type.KEY_LONG = some k ∧
      k.length = 32 ∧ ∀ c ∈ k.toList, is_hex_lower c = true) :=
  c2_event_id_length_hex sha256_fixture env_fixture "kernel panic" none
    (fun m => by simp [sha256_fixture, SHA256_DIGEST_LENGTH])
    (fun m b hb => by
      simp only [sha256_fixture, List.mem_replicate] at hb
      omega)

/-! ## Allocator lemmas -/

theorem reserve_eq (cl : sender_t) (mode : e_dir_mode) (f : Option Nat) :
    ∃ r, reserve_log_folder (some cl) mode f = some r ∧
      r.current = file_read_int f ∧
      r.counterAfter = (file_read_int f + 1) % cl.maxcrashdirs := by
  cases mode <;> exact ⟨_, rfl, rfl, rfl⟩

theorem reserveIndices_succ (cl : sender_t) (mode : e_dir_mode) (f : Option Nat)
    (n : Nat) :
    reserveIndices cl mode f (n + 1) =
      file_read_int f ::
        reserveIndices cl mode (some ((file_read_int f + 1) % cl.maxcrashdirs)) n := by
  cases mode <;> rfl

theorem reserveIndices_from (cl : sender_t) (mode : e_dir_mode)
    (hmax : 0 < cl.maxcrashdirs) :
    ∀ (n s : Nat), s < cl.maxcrashdirs →
      reserveIndices cl mode (some s) n =
        (List.range n).map (fun k => (s + k) % cl.maxcrashdirs) := by
  intro n
  induction n with
  | zero => intro s _; rfl
  | succ n ih =>
    intro s hs
    rw [reserveIndices_succ]
    have h1 : file_read_int (some s) = s := rfl
    rw [h1, ih ((s + 1) % cl.maxcrashdirs) (Nat.mod_lt _ hmax)]
    have hfun : (fun k => ((s + 1) % cl.maxcrashdirs + k) % cl.maxcrashdirs) =
        (fun k => (s + k) % cl.maxcrashdirs) ∘ Nat.succ := by
      funext k
      show ((s + 1) % cl.maxcrashdirs + k) % cl.maxcrashdirs =
        (s + Nat.succ k) % cl.maxcrashdirs
      rw [Nat.mod_add_mod]
      congr 1
      omega
    rw [hfun, List.range_succ_eq_map, List.map_cons, List.map_map]
    congr 1
    show s = (s + 0) % cl.maxcrashdirs
    rw [Nat.add_zero, Nat.mod_eq_of_lt hs]

theorem reserveIndices_none_eq_zero (cl : sender_t) (mode : e_dir_mode) (n : Nat) :
    reserveIndices cl mode none n = reserveIndices cl mode (some 0) n := by
  cases n with
  | zero => rfl
  | succ n =>
    rw [reserveIndices_succ, reserveIndices_succ]
    rfl

theorem range_map_mod (max : Nat) : ∀ n, n ≤ max →
    (List.range n).map (fun k => k % max) = List.range n := by
  intro n
  induction n with
  | zero => intro _; rfl
  | succ n ih =>
    intro hn
    rw [List.range_succ, List.map_append, ih (by omega)]
    simp only [List.map_cons, List.map_nil]
    rw [Nat.mod_eq_of_lt (by omega)]

theorem reserveIndices_from_none (cl : sender_t) (mode : e_dir_mode)
    (hmax : 0 < cl.maxcrashdirs) (n : Nat) :
    reserveIndices cl mode none n =
      (List.range n).map (fun k => k % cl.maxcrashdirs) := by
  rw [reserveIndices_none_eq_zero, reserveIndices_from cl mode hmax n 0 hmax]
  simp only [Nat.zero_add]

/-! ## Claim C1 -/

/-- C1: with `maxSlots = maxcrashdirs > 0` slots configured, `maxSlots`
reservations starting from a fresh counter file hand out the indices
`0, 1, …, maxSlots-1` in order, the next reservation hands out `0` again,
and every reservation persists exactly `(current + 1) % maxSlots`, a value
always below `maxSlots`. -/
theorem c1_reserve_ring_rotation (cl : sender_t) (mode : e_dir_mode)
    (f : Option Nat) (r : reserve_result)
    (hmax : 0 < cl.maxcrashdirs)
    (hres : reserve_log_folder (some cl) mode f = some r) :
    reserveIndices cl mode none cl.maxcrashdirs = List.range cl.maxcrashdirs ∧
    reserveIndices cl mode none (cl.maxcrashdirs + 1) =
      List.range cl.maxcrashdirs ++ [0] ∧
    r.counterAfter = (r.current + 1) % cl.maxcrashdirs ∧
    r.counterAfter < cl.maxcrashdirs := by
  obtain ⟨r2, h2, hcur, hafter⟩ := reserve_eq cl mode f
  rw [h2, Option.some.injEq] at hres
  subst hres
  refine ⟨?_, ?_, ?_, ?_⟩
  · rw [reserveIndices_from_none cl mode hmax, range_map_mod _ _ (Nat.le_refl _)]
  · rw [reserveIndices_from_none cl mode hmax, List.range_succ, List.map_append,
      range_map_mod _ _ (Nat.le_refl _)]
    simp only [List.map_cons, List.map_nil, Nat.mod_self]
  · rw [hafter, hcur]
  · rw [hafter]
    exact Nat.mod_lt _ hmax

theorem c1_reserve_ring_rotation_witness :
    0 < (sender_t.mk "out" 3).maxcrashdirs ∧
    reserve_log_folder (some (sender_t.mk "out" 3)) e_dir_mode.MODE_CRASH none =
      some (reserve_result.mk "out/crashlog" "out/currentcrashlog" 0 1) ∧
    (reserveIndices (sender_t.mk "out" 3) e_dir_mode.MODE_CRASH none 3 =
        List.range 3 ∧
      reserveIndices (sender_t.mk "out" 3) e_dir_mode.MODE_CRASH none 4 =
        List.range 3 ++ [0] ∧
      (reserve_result.mk "out/crashlog" "out/currentcrashlog" 0 1).counterAfter =
        ((reserve_result.mk "out/crashlog" "out/currentcrashlog" 0 1).current + 1) % 3 ∧
      (reserve_result.mk "out/crashlog" "out/currentcrashlog" 0 1).counterAfter < 3) :=
  ⟨by decide, by decide,
    c1_reserve_ring_rotation (sender_t.mk "out" 3) e_dir_mode.MODE_CRASH none
      (reserve_result.mk "out/crashlog" "out/currentcrashlog" 0 1)
      (by decide) (by decide)⟩

/-! ## Claim C4 -/

/-- C4: a missing (or malformed) counter file is treated as current index 0:
the reservation still succeeds and its first index on a fresh category root
is 0. -/
theorem c4_missing_counter_zero (cl : sender_t) (mode : e_dir_mode)
    (_hmax : 0 < cl.maxcrashdirs) :
    ∃ r, reserve_log_folder (some cl) mode none = some r ∧ r.current = 0 := by
  obtain ⟨r, hr, hcur, _⟩ := reserve_eq cl mode none
  exact ⟨r, hr, hcur.trans rfl⟩

theorem c4_missing_counter_zero_witness :
    ∃ r, reserve_log_folder (some (sender_t.mk "out" 5)) e_dir_mode.MODE_STATS none =
      some r ∧ r.current = 0 :=
  c4_missing_counter_zero (sender_t.mk "out" 5) e_dir_mode.MODE_STATS (by decide)

/-! ## Claim C3 -/

/-- C3 (amended): the reserved log directory path is
`<outdir>/<subdir><index>_<hashkey>` — the decimal non-padded index and the
hash key are appended directly after the subdirectory name with no further
separator (`asprintf` format `"%s%d_%s"` on a `dir` with no trailing
slash). -/
theorem c3_log_dir_shape (cl : sender_t) (mode : e_dir_mode) (hashkey : String)
    (f : Option Nat) :
    (generate_log_dir (some cl) mode hashkey f).map Prod.fst =
      some (cl.outdir ++ "/" ++ log_subdir mode ++ toString (file_read_int f) ++
            "_" ++ hashkey) := by
  cases mode <;> rfl

/-- C3 (counterexample): for outdir `out`, crash mode, a fresh counter and
hash key `abcd` the code produces `out/crashlog0_abcd`, not the claimed
`out/crashlog/0_abcd` with a path separator between subdirectory and
index. -/
theorem c3_no_separator_counterexample :
    (generate_log_dir (some (sender_t.mk "out" 10)) e_dir_mode.MODE_CRASH "abcd"
        none).map Prod.fst = some "out/crashlog0_abcd" ∧
    (generate_log_dir (some (sender_t.mk "out" 10)) e_dir_mode.MODE_CRASH "abcd"
        none).map Prod.fst ≠
      some ("out" ++ "/" ++ "crashlog" ++ "/" ++ toString (0 : Nat) ++ "_" ++ "abcd") := by
  constructor
  · rfl
  · decide

/-! ## Claim C6 -/

/-- C6 (counterexample): `generate_event_id` does not fail on the empty
seed1 — the only seed check in the source is the null check — and with the
all-zero digest fixture it returns the 20-character key of zeros. -/
theorem c6_empty_seed_counterexample :
    generate_event_id sha256_fixture env_fixture (some "") none
        key_type.KEY_SHORT ≠ none ∧
    generate_event_id sha256_fixture env_fixture (some "") none
        key_type.KEY_SHORT = some "00000000000000000000" := by
  constructor
  · decide
  · decide

/-- C6 (amended): the empty seed1 is accepted like any other non-null seed1
and produces an ordinary 20-character key; `generate_event_id` rejects
seed1 only when it is null. -/
theorem c6_empty_seed_succeeds (sha : List Nat → List Nat) (env : ProbeEnv)
    (seed2 : Option String)
    (hlen : ∀ m, (sha m).length = SHA256_DIGEST_LENGTH)
    (hbyte : ∀ m b, b ∈ sha m → b < 256) :
    (∃ k, generate_event_id sha env (some "") seed2 key_type.KEY_SHORT = some k ∧
      k.length = 20) ∧
    (∀ (s2 : Option String) (t : key_type), generate_event_id sha env none s2 t = none) := by
  constructor
  · cases seed2 with
    | none =>
      obtain ⟨k, hk, hl, _⟩ :=
        compute_key_spec sha env SHORT_KEY_LENGTH "" (by decide) (by decide) hlen hbyte
      exact ⟨k, by simpa [generate_event_id] using hk, by simpa [SHORT_KEY_LENGTH] using hl⟩
    | some s2 =>
      obtain ⟨k, hk, hl, _⟩ :=
        compute_key_spec sha env SHORT_KEY_LENGTH ("" ++ s2) (by decide) (by decide) hlen hbyte
      exact ⟨k, by simpa [generate_event_id] using hk, by simpa [SHORT_KEY_LENGTH] using hl⟩
  · intro s2 t
    rfl

theorem c6_empty_seed_succeeds_witness :
    (∃ k, generate_event_id sha256_fixture env_fixture (some "") none
        key_type.KEY_SHORT = some k ∧ k.length = 20) ∧
    (∀ (s2 : Option String) (t : key_type),
      generate_event_id sha256_fixture env_fixture none s2 t = none) :=
  c6_empty_seed_succeeds sha256_fixture env_fixture none
    (fun m => by simp [sha256_fixture, SHA256_DIGEST_LENGTH])
    (fun m b hb => by
      simp only [sha256_fixture, List.mem_replicate] at hb
      omega)

/-! ## Claim C7 -/

/-- C7 (counterexample): with an unreadable boot clock (`clock_gettime`
failure) `generate_event_id` still returns a hash key: `compute_key` never
checks the `get_uptime` result. -/
theorem c7_clock_failure_counterexample :
    get_uptime env_noclock.clock = -1 ∧
    generate_event_id sha256_fixture env_noclock (some "seed") none
      key_type.KEY_SHORT ≠ none := by
  constructor
  · rfl
  · decide

/-- C7 (amended): a boot-clock failure does not propagate out of
`compute_key`: the timestamp component of the salt is the failure value -1
and `generate_event_id` still returns a key of the requested length. -/
theorem c7_clock_failure_still_generates (sha : List Nat → List Nat)
    (env : ProbeEnv) (s1 : String) (seed2 : Option String)
    (hclock : env.clock = none)
    (hlen : ∀ m, (sha m).length = SHA256_DIGEST_LENGTH)
    (hbyte : ∀ m b, b ∈ sha m → b < 256) :
    get_uptime env.clock = -1 ∧
    ∃ k, generate_event_id sha env (some s1) seed2 key_type.KEY_SHORT = some k ∧
      k.length = 20 := by
  constructor
  · rw [hclock]
    rfl
  · cases seed2 with
    | none =>
      obtain ⟨k, hk, hl, _⟩ :=
        compute_key_spec sha env SHORT_KEY_LENGTH s1 (by decide) (by decide) hlen hbyte
      exact ⟨k, by simpa [generate_event_id] using hk, by simpa [SHORT_KEY_LENGTH] using hl⟩
    | some s2 =>
      obtain ⟨k, hk, hl, _⟩ :=
        compute_key_spec sha env SHORT_KEY_LENGTH (s1 ++ s2) (by decide) (by decide) hlen hbyte
      exact ⟨k, by simpa [generate_event_id] using hk, by simpa [SHORT_KEY_LENGTH] using hl⟩

theorem c7_clock_failure_still_generates_witness :
    get_uptime env_noclock.clock = -1 ∧
    ∃ k, generate_event_id sha256_fixture env_noclock (some "seed") none
      key_type.KEY_SHORT = some k ∧ k.length = 20 :=
  c7_clock_failure_still_generates sha256_fixture env_noclock "seed" none rfl
    (fun m => by simp [sha256_fixture, SHA256_DIGEST_LENGTH])
    (fun m b hb => by
      simp only [sha256_fixture, List.mem_replicate] at hb
      omega)

/-! ## Claim C8 -/

/-- C8: with the sender configured and the current boot id readable, the
record file is written exactly on first sight (no prior record: result 1,
file now holds the current id) and on a differing record (result 1, file
overwritten with the current id); on an equal record the result is 0 and
the record file's bytes are unchanged. -/
theorem c8_boot_id_persistence (cl : sender_t) (bid logged : String)
    (hne : logged ≠ bid) :
    is_boot_id_changed (some cl) (some bid) none true = (1, some bid) ∧
    is_boot_id_changed (some cl) (some bid) (some bid) true = (0, some bid) ∧
    is_boot_id_changed (some cl) (some bid) (some logged) true = (1, some bid) := by
  refine ⟨rfl, ?_, ?_⟩
  · simp [is_boot_id_changed]
  · simp [is_boot_id_changed, hne]

theorem c8_boot_id_persistence_witness :
    ("boot-B" : String) ≠ "boot-A" ∧
    (is_boot_id_changed (some (sender_t.mk "out" 10)) (some "boot-A") none true =
        (1, some "boot-A") ∧
      is_boot_id_changed (some (sender_t.mk "out" 10)) (some "boot-A")
        (some "boot-A") true = (0, some "boot-A") ∧
      is_boot_id_changed (some (sender_t.mk "out" 10)) (some "boot-A")
        (some "boot-B") true = (1, some "boot-A")) :=
  ⟨by decide,
    c8_boot_id_persistence (sender_t.mk "out" 10) "boot-A" "boot-B" (by decide)⟩

/-! ## Claim C9 -/

/-- C9: when the wall-clock timestamp cannot be obtained,
`generate_crashfile` returns before composing anything: no crashfile is
written. -/
theorem c9_abort_on_time_failure (env : ProbeEnv)
    (dir event hashkey type : String) (d0 d1 d2 : Option String)
    (h : env.localtime = none) :
    generate_crashfile env dir event hashkey type d0 d1 d2 = none := by
  simp [generate_crashfile, get_current_time_long, h]

theorem c9_abort_on_time_failure_witness :
    env_notime.localtime = none ∧
    generate_crashfile env_notime "d" "EVENT" "KEY" "TYPE" none none none = none :=
  ⟨rfl, c9_abort_on_time_failure env_notime "d" "EVENT" "KEY" "TYPE" none none none rfl⟩

/-! ## Claim C10 -/

/-- C10: a boot-clock failure does not abort `generate_crashfile`: the
`get_uptime_string` result is ignored, the uptime buffer stays the empty
string it was initialized to, and the full report is still written with the
`UPTIME=` line carrying an empty value. -/
theorem c10_uptime_failure_still_writes (env : ProbeEnv)
    (dir event hashkey type dt : String) (d0 d1 d2 : Option String)
    (hclock : env.clock = none) (hlt : env.localtime = some dt) :
    get_uptime_string env.clock = none ∧
    generate_crashfile env dir event hashkey type d0 d1 d2 =
      some (dir ++ "/" ++ "crashfile",
        strcat_fmt ("EVENT=" ++ event ++ "\n") ++
        strcat_fmt ("ID=" ++ hashkey ++ "\n") ++
        strcat_fmt ("DEVICEID=" ++ env.guuid ++ "\n") ++
        strcat_fmt ("DATE=" ++ dt ++ "\n") ++
        "UPTIME=\n" ++
        strcat_fmt ("BUILD=" ++ env.gbuildversion ++ "\n") ++
        strcat_fmt ("TYPE=" ++ type ++ "\n") ++
        (match d0 with
         | some d => strcat_fmt ("DATA0=" ++ d ++ "\n")
         | none => "") ++
        (match d1 with
         | some d => strcat_fmt ("DATA1=" ++ d ++ "\n")
         | none => "") ++
        (match d2 with
         | some d => strcat_fmt ("DATA2=" ++ d ++ "\n")
         | none => "") ++
        "_END\n") := by
  have hu : get_uptime_string env.clock = none := by
    rw [hclock]
    rfl
  refine ⟨hu, ?_⟩
  simp only [generate_crashfile, get_current_time_long, hlt, crash_text,
    uptime_buffer, hu, Option.getD_none]
  rw [show ("UPTIME=" ++ "" ++ "\n" : String) = "UPTIME=\n" from rfl,
    strcat_fmt_of_le "UPTIME=\n" (by decide)]

theorem c10_uptime_failure_still_writes_witness :
    get_uptime_string env_noclock.clock = none ∧
    generate_crashfile env_noclock "d" "EVENT" "KEY" "TYPE" (some "x") none none =
      some ("d" ++ "/" ++ "crashfile",
        strcat_fmt ("EVENT=" ++ "EVENT" ++ "\n") ++
        strcat_fmt ("ID=" ++ "KEY" ++ "\n") ++
        strcat_fmt ("DEVICEID=" ++ env_noclock.guuid ++ "\n") ++
        strcat_fmt ("DATE=" ++ "2024-01-01/00:00:00  " ++ "\n") ++
        "UPTIME=\n" ++
        strcat_fmt ("BUILD=" ++ env_noclock.gbuildversion ++ "\n") ++
        strcat_fmt ("TYPE=" ++ "TYPE" ++ "\n") ++
        (match (some "x" : Option String) with
         | some d => strcat_fmt ("DATA0=" ++ d ++ "\n")
         | none => "") ++
        (match (none : Option String) with
         | some d => strcat_fmt ("DATA1=" ++ d ++ "\n")
         | none => "") ++
        (match (none : Option String) with
         | some d => strcat_fmt ("DATA2=" ++ d ++ "\n")
         | none => "") ++
        "_END\n") :=
  c10_uptime_failure_still_writes env_noclock "d" "EVENT" "KEY" "TYPE"
    "2024-01-01/00:00:00  " (some "x") none none rfl rfl

/-! ## Claim C5 -/

set_option maxRecDepth 100000 in
/-- C5 (counterexample): a successful `generate_crashfile` call need not
produce the claimed line sequence: `long_data` makes the `DATA0` line 1024
characters, `strcat_fmt`'s buffer drops its final newline and the `DATA0`
and `DATA1` lines merge, so the written text differs from the claimed
shape (it is one character shorter). -/
theorem c5_truncation_counterexample :
    (generate_crashfile env_fixture "d" "E" "K" "T" (some long_data) (some "b")
        none).map Prod.snd ≠
      some (joinLines (crashfile_claim_lines env_fixture "2024-01-01/00:00:00  "
        "E" "K" "T" (some long_data) (some "b") none)) := by
  decide

/-- C5 (amended): provided every composed line fits `strcat_fmt`'s 1024-byte
buffer (formatted length at most 1023, newline included), the file written
by a successful `generate_crashfile` call consists of the lines `EVENT=`,
`ID=`, `DEVICEID=`, `DATE=`, `UPTIME=`, `BUILD=`, `TYPE=` in that order,
then a `DATAn=` line exactly for each non-null data argument, then the
final line `_END`; with all three data arguments null that is exactly 7
`KEY=value` lines plus the `_END` line. -/
theorem c5_crashfile_lines (env : ProbeEnv) (dir event hashkey type dt : String)
    (d0 d1 d2 : Option String)
    (hlt : env.localtime = some dt)
    (h1 : ("EVENT=" ++ event ++ "\n").length ≤ 1023)
    (h2 : ("ID=" ++ hashkey ++ "\n").length ≤ 1023)
    (h3 : ("DEVICEID=" ++ env.guuid ++ "\n").length ≤ 1023)
    (h4 : ("DATE=" ++ dt ++ "\n").length ≤ 1023)
    (h5 : ("UPTIME=" ++ uptime_buffer env.clock ++ "\n").length ≤ 1023)
    (h6 : ("BUILD=" ++ env.gbuildversion ++ "\n").length ≤ 1023)
    (h7 : ("TYPE=" ++ type ++ "\n").length ≤ 1023)
    (h8 : ∀ d, d0 = some d → ("DATA0=" ++ d ++ "\n").length ≤ 1023)
    (h9 : ∀ d, d1 = some d → ("DATA1=" ++ d ++ "\n").length ≤ 1023)
    (h10 : ∀ d, d2 = some d → ("DATA2=" ++ d ++ "\n").length ≤ 1023) :
    generate_crashfile env dir event hashkey type d0 d1 d2 =
      some (dir ++ "/" ++ "crashfile",
        joinLines (crashfile_claim_lines env dt event hashkey type d0 d1 d2)) ∧
    (crashfile_claim_lines env dt event hashkey type none none none).length = 8 := by
  refine ⟨?_, rfl⟩
  simp only [generate_crashfile, get_current_time_long, hlt]
  have key : crash_text env dt event hashkey type d0 d1 d2 =
      joinLines (crashfile_claim_lines env dt event hashkey type d0 d1 d2) := by
    rcases d0 with _ | x0 <;> rcases d1 with _ | x1 <;> rcases d2 with _ | x2 <;>
      simp only [crash_text, crashfile_claim_lines, joinLines, List.cons_append,
        List.nil_append, List.append_nil] <;>
      rw [strcat_fmt_of_le _ h1, strcat_fmt_of_le _ h2, strcat_fmt_of_le _ h3,
        strcat_fmt_of_le _ h4, strcat_fmt_of_le _ h5, strcat_fmt_of_le _ h6,
        strcat_fmt_of_le _ h7] <;>
      (try rw [strcat_fmt_of_le _ (h8 _ rfl)]) <;>
      (try rw [strcat_fmt_of_le _ (h9 _ rfl)]) <;>
      (try rw [strcat_fmt_of_le _ (h10 _ rfl)]) <;>
      (apply string_eq_of_data
       simp only [string_append_data, List.append_assoc, List.cons_append,
         List.nil_append, List.append_nil])
  rw [key]

theorem c5_crashfile_lines_witness :
    (generate_crashfile env_fixture "d" "EVENT" "KEY" "TYPE" (some "x") none
        (some "z") =
      some ("d" ++ "/" ++ "crashfile",
        joinLines (crashfile_claim_lines env_fixture "2024-01-01/00:00:00  "
          "EVENT" "KEY" "TYPE" (some "x") none (some "z")))) ∧
    (crashfile_claim_lines env_fixture "2024-01-01/00:00:00  " "EVENT" "KEY"
      "TYPE" none none none).length = 8 :=
  c5_crashfile_lines env_fixture "d" "EVENT" "KEY" "TYPE" "2024-01-01/00:00:00  "
    (some "x") none (some "z") rfl (by decide) (by decide) (by decide) (by decide)
    (by decide) (by decide) (by decide)
    (fun d hd => by injection hd with h; subst h; decide)
    (fun d hd => nomatch hd)
    (fun d hd => by injection hd with h; subst h; decide)
